import Mathlib

/-!
Verification development for the perk CRUD controller
(src/server/src/controllers/perkController.js).

The controller is embedded shallowly: each Express handler becomes a pure
Lean function from its request data and the current store contents to an
HTTP-style result, the updated store contents, and the list of store
operations it issued.  The Joi validation schema `perkSchema` and the two
`validate` calls (create: default options, i.e. abortEarly with unknown
keys rejected; update: abortEarly false, presence optional, stripUnknown)
are embedded following documented Joi semantics, including the application
of `.default(...)` values to absent keys in both modes.

The Mongoose model `Perk` (src/server/src/models/Perk.js) is not part of
the sources; the store operations it provides are modelled from the spec
(sections 3 and 6): server-assigned id and createdAt, empty-string model
defaults for description and merchant, a uniqueness constraint on
(title, merchant) surfacing a duplicate-key error (code 11000), and a
distinguishable malformed-identifier (cast) error on id lookups.
-/

namespace PerkService

/-- A stored Perk document, after model defaults are applied. -/
structure Perk where
  id : String
  title : String
  description : String
  category : String
  discountPercent : Int
  merchant : String
  createdAt : Int
deriving Repr, DecidableEq

/-- A request body for create/update: the five schema fields, each
optionally supplied, plus the names of any unknown extra keys. -/
structure Body where
  title : Option String
  description : Option String
  category : Option String
  discountPercent : Option Int
  merchant : Option String
  unknown : List String
deriving Repr, DecidableEq

/-- The keys present on the request body (`Object.keys(req.body)`). -/
def Body.keys (b : Body) : List String :=
  (if b.title.isSome then ["title"] else []) ++
  (if b.description.isSome then ["description"] else []) ++
  (if b.category.isSome then ["category"] else []) ++
  (if b.discountPercent.isSome then ["discountPercent"] else []) ++
  (if b.merchant.isSome then ["merchant"] else []) ++ b.unknown

/-- Errors surfaced by the store: a malformed-identifier cast error and a
duplicate-key error (Mongo code 11000). -/
inductive StoreErr where
  | castError
  | dupKey
deriving Repr, DecidableEq

/-- Store operations, recorded so that claims about which calls reach the
store can be stated. -/
inductive StoreOp where
  | find
  | findById
  | insert
  | delete
  | save
deriving Repr, DecidableEq

/-- Response bodies produced by the controller. -/
inductive ResBody where
  | perkB (p : Perk)
  | perksB (ps : List Perk)
  | msg (m : String)
  | msgDetails (m : String) (details : List String)
  | okTrue
deriving Repr, DecidableEq

/-- A handler outcome: either a JSON response with a status code, or the
error forwarded to the error-handling middleware via `next(err)`. -/
inductive HandlerResult where
  | res (status : Nat) (body : ResBody)
  | next (e : StoreErr)
deriving Repr, DecidableEq

/-! ### Validation (Joi `perkSchema`) -/

/-- The category enum of the schema. -/
def enumCats : List String := ["food", "tech", "travel", "fitness", "other"]

/-- Joi check for a supplied title: `Joi.string().min(2)`. -/
def titleStrErr (t : String) : Option String :=
  if t = "" then some "title is not allowed to be empty"
  else if t.length < 2 then some "title length must be at least 2 characters long"
  else none

/-- Title errors in create mode (`.required()`). -/
def titleErr : Option String → Option String
  | none => some "title is required"
  | some t => titleStrErr t

/-- Title errors in update mode (presence optional). -/
def updTitleErr : Option String → Option String
  | none => none
  | some t => titleStrErr t

/-- Category errors: `Joi.string().valid(...)`, absent is fine. -/
def categoryErr : Option String → Option String
  | none => none
  | some c =>
      if enumCats.contains c then none
      else some "category must be one of the allowed values"

/-- Discount errors: `Joi.number().min(0).max(100)`, absent is fine. -/
def discountErr : Option Int → Option String
  | none => none
  | some n =>
      if n < 0 then some "discountPercent must be greater than or equal to 0"
      else if 100 < n then some "discountPercent must be less than or equal to 100"
      else none

/-- All validation errors of a create-mode `perkSchema.validate(body)`, in
schema order (unknown keys rejected: `allowUnknown` defaults to false). -/
def createErrs (b : Body) : List String :=
  (titleErr b.title).toList ++ (categoryErr b.category).toList ++
  (discountErr b.discountPercent).toList ++
  b.unknown.map (fun u => u ++ " is not allowed")

/-- All validation errors of the update-mode validate call
(presence optional, stripUnknown: unknown keys are dropped silently). -/
def updateErrs (b : Body) : List String :=
  (updTitleErr b.title).toList ++ (categoryErr b.category).toList ++
  (discountErr b.discountPercent).toList

/-- The value produced by a successful create-mode validation: required
title, defaults applied to category and discountPercent, description and
merchant passed through only when supplied (the schema declares no
default for them). -/
structure CreateValue where
  title : String
  description : Option String
  category : String
  discountPercent : Int
  merchant : Option String
deriving Repr, DecidableEq

/-- Create-mode `perkSchema.validate(req.body)`: Joi default options abort
at the first error and `error.message` is that single message. -/
def createValidate (b : Body) : Except String CreateValue :=
  if createErrs b = [] then
      .ok { title := b.title.getD ""
            description := b.description
            category := b.category.getD "other"
            discountPercent := b.discountPercent.getD 0
            merchant := b.merchant }
  else .error ((createErrs b).headD "")

/-- The value produced by a successful update-mode validation.  Joi
applies `.default(...)` to absent keys even under `presence: optional`
(there is no `noDefaults: true` in the call), so `category` and
`discountPercent` are always present on the validated value. -/
structure UpdateValue where
  title : Option String
  description : Option String
  category : String
  discountPercent : Int
  merchant : Option String
deriving Repr, DecidableEq

/-- Update-mode validate call: collects every field error
(abortEarly false); on success returns the validated value with
defaults filled in for absent category/discountPercent. -/
def updateValidate (b : Body) : Except (List String) UpdateValue :=
  if updateErrs b = [] then
      .ok { title := b.title
            description := b.description
            category := b.category.getD "other"
            discountPercent := b.discountPercent.getD 0
            merchant := b.merchant }
  else .error (updateErrs b)

/-! ### Store model

Modelled from the spec: the Perk model file is not under the sources. -/

/-- Modelled from the spec: a well-formed identifier shape (the store
surfaces a distinguishable malformed-identifier error otherwise); Mongo
ObjectIds are 24 hexadecimal characters. -/
def wellFormedId (s : String) : Bool :=
  s.length = 24 &&
  s.toList.all (fun c =>
    c.isDigit || ('a' ≤ c && c ≤ 'f') || ('A' ≤ c && c ≤ 'F'))

/-- Modelled from the spec: `Perk.findById` — cast error on a malformed
id, otherwise the matching document if any. -/
def findById (id : String) (store : List Perk) : Except StoreErr (Option Perk) :=
  if wellFormedId id then .ok (store.find? (fun p => p.id == id))
  else .error .castError

/-- Modelled from the spec: `Perk.create` — server-assigned id and
createdAt, model defaults (empty string) for description and merchant,
and a duplicate-key error when a document with the same
(title, merchant) already exists. -/
def insertOne (v : CreateValue) (newId : String) (now : Int) (store : List Perk) :
    Except StoreErr (Perk × List Perk) :=
  if store.any (fun p => p.title == v.title && p.merchant == v.merchant.getD "") then
    .error .dupKey
  else
    let doc : Perk :=
      { id := newId, title := v.title, description := v.description.getD ""
        category := v.category, discountPercent := v.discountPercent
        merchant := v.merchant.getD "", createdAt := now }
    .ok (doc, doc :: store)

/-- Modelled from the spec: `Perk.findByIdAndDelete` — cast error on a
malformed id, otherwise atomically removes and returns the matching
document if any. -/
def findByIdAndDelete (id : String) (store : List Perk) :
    Except StoreErr (Option Perk × List Perk) :=
  if wellFormedId id then
    match store.find? (fun p => p.id == id) with
    | none => .ok (none, store)
    | some p => .ok (some p, store.eraseP (fun q => q.id == id))
  else .error .castError

/-- Modelled from the spec: `perk.save()` — persists the mutated document
in place. -/
def saveDoc (p : Perk) (store : List Perk) : List Perk :=
  store.map (fun q => if q.id == p.id then p else q)

/-- Descending order on creation time (the sort key `createdAt: -1`). -/
def byCreatedAtDesc (a b : Perk) : Prop := b.createdAt ≤ a.createdAt

instance : DecidableRel byCreatedAtDesc :=
  fun a b => inferInstanceAs (Decidable (b.createdAt ≤ a.createdAt))

instance : IsTotal Perk byCreatedAtDesc :=
  ⟨fun a b => (le_total b.createdAt a.createdAt).imp id id⟩

instance : IsTrans Perk byCreatedAtDesc :=
  ⟨fun _ _ _ hab hbc => le_trans hbc hab⟩

/-- Modelled from the spec: `Perk.find(query)` sorted by `createdAt`
descending. -/
def findSorted (q : Perk → Bool) (store : List Perk) : List Perk :=
  List.insertionSort byCreatedAtDesc (store.filter q)

/-! ### Handlers -/

/-- `filterPerks`: 400 when the title query parameter is absent or empty
(JS truthiness of `title`), with no store call; otherwise the perks whose
title matches exactly, newest first. -/
def filterPerks (title? : Option String) (store : List Perk) :
    HandlerResult × List StoreOp :=
  match title? with
  | some t =>
      if t = "" then (.res 400 (.msg "Title query parameter is required"), [])
      else (.res 200 (.perksB (findSorted (fun p => p.title == t) store)), [.find])
  | none => (.res 400 (.msg "Title query parameter is required"), [])

/-- `getPerk`: 404 when no document matches, 200 with the perk otherwise;
a store error (including the cast error on a malformed id) is forwarded
to `next`. -/
def getPerk (id : String) (store : List Perk) : HandlerResult :=
  match findById id store with
  | .error e => .next e
  | .ok none => .res 404 (.msg "Perk not found")
  | .ok (some p) => .res 200 (.perkB p)

/-- `getAllPerks`: every perk, newest first. -/
def getAllPerks (store : List Perk) : HandlerResult :=
  .res 200 (.perksB (findSorted (fun _ => true) store))

/-- `createPerk`: validate (default Joi options), 400 with the single
first error message on failure; insert on success, mapping the
duplicate-key error to 409. -/
def createPerk (b : Body) (newId : String) (now : Int) (store : List Perk) :
    HandlerResult × List Perk × List StoreOp :=
  match createValidate b with
  | .error m => (.res 400 (.msg m), store, [])
  | .ok v =>
      match insertOne v newId now store with
      | .error .dupKey =>
          (.res 409 (.msg "Duplicate perk for this merchant"), store, [.insert])
      | .error e => (.next e, store, [.insert])
      | .ok (doc, store') => (.res 201 (.perkB doc), store', [.insert])

/-- JS truthiness of `req.params.id`. -/
def idPresent : Option String → Bool
  | none => false
  | some s => s ≠ ""

/-- `updatePerk`: guards on missing id and empty body, then lookup
(cast error mapped to 400 "Invalid id format"), then the update-mode
validate call, then `Object.assign(perk, value)` and `perk.save()`. -/
def updatePerk (id? : Option String) (body? : Option Body) (store : List Perk) :
    HandlerResult × List Perk × List StoreOp :=
  if idPresent id? = false then (.res 400 (.msg "Missing id parameter"), store, [])
  else
    match body? with
    | none => (.res 400 (.msg "No update fields provided"), store, [])
    | some b =>
        if b.keys = [] then (.res 400 (.msg "No update fields provided"), store, [])
        else
          match findById (id?.getD "") store with
          | .error .castError => (.res 400 (.msg "Invalid id format"), store, [.findById])
          | .error e => (.next e, store, [.findById])
          | .ok none => (.res 404 (.msg "Perk not found"), store, [.findById])
          | .ok (some perk) =>
              match updateValidate b with
              | .error es =>
                  (.res 400 (.msgDetails "Validation failed" es), store, [.findById])
              | .ok v =>
                  let updated : Perk :=
                    { perk with
                      title := v.title.getD perk.title
                      description := v.description.getD perk.description
                      category := v.category
                      discountPercent := v.discountPercent
                      merchant := v.merchant.getD perk.merchant }
                  (.res 200 (.perkB updated), saveDoc updated store, [.findById, .save])

/-- `deletePerk`: find-and-delete; 404 when nothing matched, 200
`ok: true` on success; store errors forwarded to `next`. -/
def deletePerk (id : String) (store : List Perk) : HandlerResult × List Perk :=
  match findByIdAndDelete id store with
  | .error e => (.next e, store)
  | .ok (none, _) => (.res 404 (.msg "Perk not found"), store)
  | .ok (some _, store') => (.res 200 .okTrue, store')

/-- A 400 response of any body shape. -/
def isBadRequest : HandlerResult → Bool
  | .res 400 _ => true
  | _ => false

/-! ### Concrete example values -/

/-- A well-formed ObjectId-shaped identifier. -/
def goodId : String := "0123456789abcdef01234567"

/-- A second well-formed identifier. -/
def goodId2 : String := "0123456789abcdef01234568"

/-- A malformed identifier. -/
def badId : String := "not-an-objectid"

/-- The empty request body. -/
def emptyBody : Body := ⟨none, none, none, none, none, []⟩

/-- A body supplying only the description field. -/
def descBody : Body := { emptyBody with description := some "new" }

/-- A stored perk with non-default category and discount. -/
def perk0 : Perk :=
  { id := goodId, title := "Coffee", description := "", category := "tech"
    discountPercent := 50, merchant := "Acme", createdAt := 5 }

/-- What the code turns perk0 into when only description is updated:
category and discountPercent are reset to the schema defaults. -/
def perk0upd : Perk :=
  { perk0 with description := "new", category := "other", discountPercent := 0 }

/-- A creation body with a title and a merchant. -/
def dupBody : Body :=
  { emptyBody with title := some "Latte", merchant := some "Acme" }

/-- The validated value of dupBody. -/
def dupVal : CreateValue :=
  { title := "Latte", description := none, category := "other"
    discountPercent := 0, merchant := some "Acme" }

/-- The document created from dupBody. -/
def dupDoc : Perk :=
  { id := goodId, title := "Latte", description := "", category := "other"
    discountPercent := 0, merchant := "Acme", createdAt := 1 }

/-- A stored perk titled X. -/
def perkX : Perk :=
  { id := goodId, title := "X", description := "", category := "other"
    discountPercent := 0, merchant := "", createdAt := 1 }

/-- A stored perk titled X2 (a different title than X). -/
def perkX2 : Perk :=
  { id := goodId2, title := "X2", description := "", category := "other"
    discountPercent := 0, merchant := "", createdAt := 2 }

/-- A body whose title is too short. -/
def shortBody : Body := { emptyBody with title := some "x" }

/-- A body with two invalid fields: a too-short title and an
out-of-range discountPercent. -/
def bad2Body : Body :=
  { emptyBody with title := some "x", discountPercent := some 150 }

/-- A body with an unknown extra field. -/
def unkBody : Body := { emptyBody with title := some "Latte", unknown := ["foo"] }

/-! ### Helper lemmas -/

/-- The update-mode validate call fails exactly with the full error list. -/
theorem updateValidate_of_errs (b : Body) (h : updateErrs b ≠ []) :
    updateValidate b = .error (updateErrs b) := by
  unfold updateValidate
  simp [h]

/-- Shared shape of the update handler on a validation failure. -/
theorem updatePerk_valfail (id : String) (b : Body) (store : List Perk) (perk : Perk)
    (hid : idPresent (some id) = true) (hkeys : b.keys ≠ [])
    (hfind : findById id store = .ok (some perk)) (herr : updateErrs b ≠ []) :
    updatePerk (some id) (some b) store =
      (.res 400 (.msgDetails "Validation failed" (updateErrs b)), store, [.findById]) := by
  unfold updatePerk
  rw [hid]
  simp only [Bool.true_eq_false, if_false, hkeys, if_neg, Option.getD_some]
  rw [hfind, updateValidate_of_errs b herr]

/-- An empty create-mode error list means every field check passed and
there were no unknown keys. -/
theorem createErrs_nil_inv (b : Body) (h : createErrs b = []) :
    titleErr b.title = none ∧ categoryErr b.category = none ∧
    discountErr b.discountPercent = none ∧ b.unknown = [] := by
  unfold createErrs at h
  simp only [List.append_eq_nil, List.map_eq_nil_iff] at h
  obtain ⟨⟨⟨h1, h2⟩, h3⟩, h4⟩ := h
  refine ⟨?_, ?_, ?_, h4⟩
  · cases hx : titleErr b.title <;> simp [hx] at h1 ⊢
  · cases hx : categoryErr b.category <;> simp [hx] at h2 ⊢
  · cases hx : discountErr b.discountPercent <;> simp [hx] at h3 ⊢

/-- A passing discount check bounds the defaulted value. -/
theorem discountErr_none_bounds (o : Option Int) (h : discountErr o = none) :
    0 ≤ o.getD 0 ∧ o.getD 0 ≤ 100 := by
  cases o with
  | none => exact ⟨le_refl 0, by norm_num⟩
  | some n =>
    simp only [discountErr, Option.getD_some] at h ⊢
    split at h
    · simp at h
    · split at h
      · simp at h
      · rename_i h1 h2
        exact ⟨le_of_not_lt h1, le_of_not_lt h2⟩

/-- A passing category check puts the defaulted value in the enum. -/
theorem categoryErr_none_mem (o : Option String) (h : categoryErr o = none) :
    o.getD "other" ∈ enumCats := by
  cases o with
  | none => decide
  | some c =>
    simp only [categoryErr, Option.getD_some] at h ⊢
    split at h
    · rename_i hc
      simpa using hc
    · simp at h

/-- Inversion of a 201 response from the create handler: validation
passed and the created document is determined by the body. -/
theorem createPerk_201_inv (b : Body) (nid : String) (now : Int)
    (store store' : List Perk) (doc : Perk) (tr : List StoreOp)
    (h : createPerk b nid now store = (.res 201 (.perkB doc), store', tr)) :
    createErrs b = [] ∧
    doc = { id := nid, title := b.title.getD "", description := b.description.getD ""
            category := b.category.getD "other"
            discountPercent := b.discountPercent.getD 0
            merchant := b.merchant.getD "", createdAt := now } := by
  unfold createPerk at h
  split at h
  · simp at h
  · rename_i v hv
    unfold createValidate at hv
    split at hv
    · rename_i herrs
      simp only [Except.ok.injEq] at hv
      refine ⟨herrs, ?_⟩
      split at h
      · simp at h
      · simp at h
      · rename_i d s2 hins
        unfold insertOne at hins
        split at hins
        · simp at hins
        · simp only [Except.ok.injEq, Prod.mk.injEq] at hins
          obtain ⟨hd, -⟩ := hins
          simp only [Prod.mk.injEq, HandlerResult.res.injEq,
            ResBody.perkB.injEq] at h
          obtain ⟨⟨-, hdoc⟩, -, -⟩ := h
          rw [← hdoc, ← hd, ← hv]
    · simp at hv

end PerkService

namespace PerkService

/-! ### Claim theorems -/

/-- C6: when the title query parameter is absent or the empty string,
filterPerks responds 400 and issues no store operation. -/
theorem filterPerks_no_title_badRequest (title? : Option String) (store : List Perk)
    (h : title? = none ∨ title? = some "") :
    filterPerks title? store =
      (.res 400 (.msg "Title query parameter is required"), []) := by
  rcases h with h | h <;> subst h <;> rfl

/-- Witness for C6 at title absent and title empty. -/
theorem filterPerks_no_title_badRequest_witness :
    filterPerks none [perkX] = (.res 400 (.msg "Title query parameter is required"), []) ∧
    filterPerks (some "") [perkX] =
      (.res 400 (.msg "Title query parameter is required"), []) :=
  ⟨filterPerks_no_title_badRequest none [perkX] (Or.inl rfl),
   filterPerks_no_title_badRequest (some "") [perkX] (Or.inr rfl)⟩

/-- C9: a missing id fails with 400 "Missing id parameter" and an empty
field set fails with 400 "No update fields provided", in both cases with
no store operation issued and the store unchanged. -/
theorem updatePerk_guards (id? : Option String) (body? : Option Body)
    (store : List Perk) :
    (idPresent id? = false →
      updatePerk id? body? store = (.res 400 (.msg "Missing id parameter"), store, [])) ∧
    (idPresent id? = true → body? = none →
      updatePerk id? body? store =
        (.res 400 (.msg "No update fields provided"), store, [])) ∧
    (∀ b, idPresent id? = true → body? = some b → b.keys = [] →
      updatePerk id? body? store =
        (.res 400 (.msg "No update fields provided"), store, [])) := by
  refine ⟨fun h => ?_, fun h hb => ?_, fun b h hb hk => ?_⟩
  · unfold updatePerk
    simp [h]
  · subst hb
    unfold updatePerk
    simp [h]
  · subst hb
    unfold updatePerk
    simp [h, hk]

/-- Witness for C9 at concrete inputs. -/
theorem updatePerk_guards_witness :
    updatePerk none (some descBody) [perk0] =
      (.res 400 (.msg "Missing id parameter"), [perk0], []) ∧
    updatePerk (some goodId) (some emptyBody) [perk0] =
      (.res 400 (.msg "No update fields provided"), [perk0], []) :=
  ⟨(updatePerk_guards none (some descBody) [perk0]).1 rfl,
   (updatePerk_guards (some goodId) (some emptyBody) [perk0]).2.2 emptyBody
     (by decide) rfl (by decide)⟩

/-- C2 counterexample: on a malformed id, getPerk and deletePerk do not
respond 400 (they forward the cast error to the error middleware). -/
theorem getDelete_badId_not_badRequest :
    wellFormedId badId = false ∧
    isBadRequest (getPerk badId []) = false ∧
    isBadRequest (deletePerk badId []).1 = false := by
  decide

/-- C2 amended: on a malformed id, getPerk and deletePerk forward the
store cast error to the error middleware (only updatePerk maps it to
400); on a well-formed id matching no record they respond 404. -/
theorem getDelete_id_handling (id : String) (store : List Perk) :
    (wellFormedId id = false →
      getPerk id store = .next .castError ∧
      deletePerk id store = (.next .castError, store)) ∧
    (wellFormedId id = true → store.find? (fun p => p.id == id) = none →
      getPerk id store = .res 404 (.msg "Perk not found") ∧
      deletePerk id store = (.res 404 (.msg "Perk not found"), store)) := by
  constructor
  · intro h
    constructor
    · unfold getPerk findById
      simp [h]
    · unfold deletePerk findByIdAndDelete
      simp [h]
  · intro h hf
    constructor
    · unfold getPerk findById
      simp [h, hf]
    · unfold deletePerk findByIdAndDelete
      simp [h, hf]

/-- Witness for the amended C2 at concrete ids. -/
theorem getDelete_id_handling_witness :
    getPerk badId [perk0] = .next .castError ∧
    deletePerk badId [perk0] = (.next .castError, [perk0]) ∧
    getPerk goodId2 [perk0] = .res 404 (.msg "Perk not found") ∧
    deletePerk goodId2 [perk0] = (.res 404 (.msg "Perk not found"), [perk0]) :=
  ⟨((getDelete_id_handling badId [perk0]).1 (by decide)).1,
   ((getDelete_id_handling badId [perk0]).1 (by decide)).2,
   ((getDelete_id_handling goodId2 [perk0]).2 (by decide) (by decide)).1,
   ((getDelete_id_handling goodId2 [perk0]).2 (by decide) (by decide)).2⟩

/-- C1: code behavior at the failing input. Updating only the description
of perk0 succeeds with 200, but the stored category and
discountPercent are reset to the schema defaults ("other" and 0) by the
defaults the validate call applies to absent fields, while the spec
requires them to keep their previous values. -/
theorem updatePerk_descOnly_resets_defaults :
    updatePerk (some goodId) (some descBody) [perk0] =
      (.res 200 (.perkB perk0upd), [perk0upd], [.findById, .save]) ∧
    perk0.category = "tech" ∧ perk0.discountPercent = 50 ∧
    perk0upd.category = "other" ∧ perk0upd.discountPercent = 0 ∧
    perk0upd.description = "new" ∧ perk0upd.title = perk0.title := by
  decide

/-- C3: every record returned with 201 by create has discountPercent in
[0,100] and category in the enum; category defaults to "other",
discountPercent to 0, and description/merchant to the empty string when
omitted; and a body with unknown fields is rejected with 400, nothing
persisted. -/
theorem createPerk_valid_result_invariants :
    (∀ b nid now store store' doc tr,
      createPerk b nid now store = (.res 201 (.perkB doc), store', tr) →
      (0 ≤ doc.discountPercent ∧ doc.discountPercent ≤ 100) ∧
      doc.category ∈ enumCats ∧
      (b.category = none → doc.category = "other") ∧
      (b.discountPercent = none → doc.discountPercent = 0) ∧
      (b.description = none → doc.description = "") ∧
      (b.merchant = none → doc.merchant = "")) ∧
    (∀ b nid now store, b.unknown ≠ [] →
      ∃ m, createPerk b nid now store = (.res 400 (.msg m), store, [])) := by
  constructor
  · intro b nid now store store' doc tr h
    obtain ⟨herrs, hdoc⟩ := createPerk_201_inv b nid now store store' doc tr h
    obtain ⟨-, hcat, hdisc, -⟩ := createErrs_nil_inv b herrs
    subst hdoc
    refine ⟨discountErr_none_bounds _ hdisc, categoryErr_none_mem _ hcat,
      ?_, ?_, ?_, ?_⟩
    · intro hc
      simp [hc]
    · intro hd
      simp [hd]
    · intro hde
      simp [hde]
    · intro hm
      simp [hm]
  · intro b nid now store hu
    have hne : createErrs b ≠ [] := by
      intro hc
      exact hu (createErrs_nil_inv b hc).2.2.2
    refine ⟨(createErrs b).headD "", ?_⟩
    have hcv : createValidate b = .error ((createErrs b).headD "") := by
      unfold createValidate
      rw [if_neg hne]
    unfold createPerk
    rw [hcv]

/-- Witness for C3: a successful create with only a title and a merchant
gets the defaults, and a body with an unknown field is rejected. -/
theorem createPerk_valid_result_invariants_witness :
    ((0 ≤ dupDoc.discountPercent ∧ dupDoc.discountPercent ≤ 100) ∧
      dupDoc.category ∈ enumCats ∧ dupDoc.category = "other" ∧
      dupDoc.discountPercent = 0 ∧ dupDoc.description = "") ∧
    ∃ m, createPerk unkBody goodId 1 [] = (.res 400 (.msg m), [], []) := by
  obtain ⟨h1, h2, h3, h4, h5, -⟩ :=
    createPerk_valid_result_invariants.1 dupBody goodId 1 [] [dupDoc] dupDoc
      [.insert] (by decide)
  exact ⟨⟨h1, h2, h3 rfl, h4 rfl, h5 rfl⟩,
    createPerk_valid_result_invariants.2 unkBody goodId 1 [] (by decide)⟩

/-- C4: when the supplied update fields fail validation, the update
handler responds 400 with the full list of per-field messages (each
failing field check contributes its message) and the store is unchanged,
with only the lookup issued. -/
theorem updatePerk_validation_failure_reports_all (id : String) (b : Body)
    (store : List Perk) (perk : Perk)
    (hid : idPresent (some id) = true) (hkeys : b.keys ≠ [])
    (hfind : findById id store = .ok (some perk)) (herr : updateErrs b ≠ []) :
    updatePerk (some id) (some b) store =
      (.res 400 (.msgDetails "Validation failed" (updateErrs b)), store, [.findById]) ∧
    (∀ m, updTitleErr b.title = some m → m ∈ updateErrs b) ∧
    (∀ m, categoryErr b.category = some m → m ∈ updateErrs b) ∧
    (∀ m, discountErr b.discountPercent = some m → m ∈ updateErrs b) := by
  refine ⟨updatePerk_valfail id b store perk hid hkeys hfind herr, ?_, ?_, ?_⟩ <;>
    intro m hm <;> simp [updateErrs, hm]

/-- Witness for C4: updating with a too-short title and discountPercent
150 yields 400 with both messages and leaves the store unchanged. -/
theorem updatePerk_validation_failure_reports_all_witness :
    updatePerk (some goodId) (some bad2Body) [perk0] =
      (.res 400 (.msgDetails "Validation failed"
        ["title length must be at least 2 characters long",
         "discountPercent must be less than or equal to 100"]),
       [perk0], [.findById]) := by
  have h := (updatePerk_validation_failure_reports_all goodId bad2Body [perk0]
    perk0 (by decide) (by decide) rfl (by decide)).1
  rw [h]
  decide

/-- C5: whenever the store signals a duplicate-key violation on insert,
create responds 409 with the duplicate-perk message and the store is
unchanged. -/
theorem createPerk_dup_conflict (b : Body) (v : CreateValue) (nid : String)
    (now : Int) (store : List Perk)
    (hv : createValidate b = .ok v)
    (hdup : insertOne v nid now store = .error .dupKey) :
    createPerk b nid now store =
      (.res 409 (.msg "Duplicate perk for this merchant"), store, [.insert]) := by
  simp only [createPerk, hv, hdup]

/-- Witness for C5: the second of two creates with identical
(title, merchant) fails with 409. -/
theorem createPerk_dup_conflict_witness :
    createPerk dupBody goodId 1 [] = (.res 201 (.perkB dupDoc), [dupDoc], [.insert]) ∧
    createPerk dupBody goodId2 2 [dupDoc] =
      (.res 409 (.msg "Duplicate perk for this merchant"), [dupDoc], [.insert]) :=
  ⟨by decide,
   createPerk_dup_conflict dupBody dupVal goodId2 2 [dupDoc] rfl rfl⟩

/-- C7: for a non-empty title, filterPerks responds 200 with exactly the
stored perks whose title equals it (exact string equality), sorted by
createdAt descending; the list may be empty. -/
theorem filterPerks_exact_match_sorted (t : String) (store : List Perk)
    (ht : t ≠ "") :
    ∃ ps, filterPerks (some t) store = (.res 200 (.perksB ps), [.find]) ∧
      List.Sorted byCreatedAtDesc ps ∧
      (∀ p, p ∈ ps ↔ p ∈ store ∧ p.title = t) ∧
      ps.Perm (store.filter (fun p => p.title == t)) := by
  refine ⟨findSorted (fun p => p.title == t) store, ?_, ?_, ?_, ?_⟩
  · unfold filterPerks
    simp [ht]
  · exact List.sorted_insertionSort byCreatedAtDesc _
  · intro p
    unfold findSorted
    rw [(List.perm_insertionSort byCreatedAtDesc _).mem_iff]
    simp [List.mem_filter]
  · exact List.perm_insertionSort byCreatedAtDesc _

/-- Witness for C7: with records titled X2 and X stored, filtering by X
returns exactly the X record (the X2 record is excluded). -/
theorem filterPerks_exact_match_sorted_witness :
    ∃ ps, filterPerks (some "X") [perkX2, perkX] = (.res 200 (.perksB ps), [.find]) ∧
      List.Sorted byCreatedAtDesc ps ∧
      (∀ p, p ∈ ps ↔ p ∈ [perkX2, perkX] ∧ p.title = "X") ∧
      ps.Perm ([perkX2, perkX].filter (fun p => p.title == "X")) :=
  filterPerks_exact_match_sorted "X" [perkX2, perkX] (by decide)

/-- C8: a creation body whose title is absent or shorter than 2
characters is rejected with 400, with no insert issued and the store
unchanged. -/
theorem createPerk_short_title_rejected (b : Body) (nid : String) (now : Int)
    (store : List Perk)
    (h : b.title = none ∨ ∃ t, b.title = some t ∧ t.length < 2) :
    createPerk b nid now store =
      (.res 400 (.msg ((createErrs b).headD "")), store, []) := by
  have hte : titleErr b.title ≠ none := by
    rcases h with h | ⟨t, ht, hlen⟩
    · rw [h]
      simp [titleErr]
    · rw [ht]
      simp only [titleErr, titleStrErr]
      by_cases h0 : t = "" <;> simp [h0, hlen]
  have hne : createErrs b ≠ [] := by
    intro hc
    exact hte (createErrs_nil_inv b hc).1
  have hcv : createValidate b = .error ((createErrs b).headD "") := by
    unfold createValidate
    rw [if_neg hne]
  unfold createPerk
  rw [hcv]

/-- Witness for C8: a one-character title is rejected, the store keeps
its contents. -/
theorem createPerk_short_title_rejected_witness :
    createPerk shortBody goodId 1 [perk0] =
      (.res 400 (.msg ((createErrs shortBody).headD "")), [perk0], []) :=
  createPerk_short_title_rejected shortBody goodId 1 [perk0]
    (Or.inr ⟨"x", rfl, by decide⟩)

/-- C10: when a creation body carries at least two validation errors,
create responds 400 with only the first message of the error list,
while the update handler on the same body reports the full per-field
list. -/
theorem createPerk_abortEarly_single_message (b : Body) (nid : String)
    (now : Int) (store : List Perk) (h2 : 2 ≤ (createErrs b).length) :
    createPerk b nid now store =
      (.res 400 (.msg ((createErrs b).headD "")), store, []) ∧
    (createErrs b).headD "" ∈ createErrs b ∧
    (∀ id store' perk, idPresent (some id) = true → b.keys ≠ [] →
      findById id store' = .ok (some perk) → updateErrs b ≠ [] →
      updatePerk (some id) (some b) store' =
        (.res 400 (.msgDetails "Validation failed" (updateErrs b)), store',
         [.findById])) := by
  have hne : createErrs b ≠ [] := by
    intro hc
    rw [hc] at h2
    simp at h2
  refine ⟨?_, ?_, fun id store' perk hid hk hf he =>
    updatePerk_valfail id b store' perk hid hk hf he⟩
  · have hcv : createValidate b = .error ((createErrs b).headD "") := by
      unfold createValidate
      rw [if_neg hne]
    unfold createPerk
    rw [hcv]
  · cases hc : createErrs b with
    | nil => exact absurd hc hne
    | cons m ms => simp

/-- Witness for C10: with a too-short title and discountPercent 150, the
create response carries only the title message. -/
theorem createPerk_abortEarly_single_message_witness :
    createPerk bad2Body goodId 1 [] =
      (.res 400 (.msg "title length must be at least 2 characters long"), [], []) := by
  have h := (createPerk_abortEarly_single_message bad2Body goodId 1 [] (by decide)).1
  rw [h]
  decide

end PerkService
